import Mathlib

/-!
# drivefuse: the FUSE adapter and the mount / shutdown path

A shallow embedding of `mount/mount.go` (the node types `GoogleDriveFolder` and
`GoogleDriveFile` with their handlers, and `MountAndServe`) and of
`gracefulShutDown` in `main.go`.

Conventions of the embedding

* Go `int64` / `int` values are `Int`; a conversion to an unsigned type is written
  with an explicit `% 2 ^ w`.
* A Go pointer that the code may receive as `nil` is an `Option`; a Go `error`
  value is an `Option ε` (`none` is `nil`), for an arbitrary type `ε` of errors.
* A Go multi-value return `(v, err)` is a pair: nothing ties `v` to `err`.
* The package level variables `metaService` and `blobManager` are passed to the
  handlers explicitly; the collaborators behind them (the `metadata`, `blob` and
  `fuse` packages) are records of functions over an arbitrary state.
* Every call a handler makes to the metadata service is appended to a call log, so
  that "issues exactly one request" is a statement about the log.
* A run time panic (nil dereference, failed type assertion) is `Exec.panic`.
-/

namespace DriveFuse

/-! ## Data model -/

/-- Go `time.Time`. The adapter only copies such values, so an instant is a number. -/
abbrev Time := Int

/-- Modelled from the spec: the record `metadata.CachedDriveFile` is declared in the
`metadata` package; these are the fields that `mount.go` reads from it. -/
structure CachedDriveFile where
  LocalId : Int
  LocalParentId : Int
  Name : String
  IsDir : Bool
  FileSize : Int
  Md5Checksum : String
  LastMod : Time
  deriving DecidableEq, Repr

/-- The `GoogleDriveFolder` struct; unset fields hold the Go zero value. -/
structure GoogleDriveFolder where
  LocalId : Int := 0
  LocalParentId : Int := 0
  Name : String := ""
  Size : Int := 0
  LastMod : Time := 0
  deriving DecidableEq, Repr

/-- The `GoogleDriveFile` struct; unset fields hold the Go zero value. -/
structure GoogleDriveFile where
  LocalId : Int := 0
  LocalParentId : Int := 0
  Name : String := ""
  Md5Checksum : String := ""
  Size : Int := 0
  LastMod : Time := 0
  deriving DecidableEq, Repr

/-- A `fuse.Node` as the adapter produces it: a pointer to one of the two structs. -/
inductive Node where
  | folder (d : GoogleDriveFolder)
  | file (f : GoogleDriveFile)
  deriving DecidableEq, Repr

/-- Modelled from the spec: the error numbers exported by the `fuse` package. The
adapter returns `ENOENT` (the taxonomy kind `NotFound`) and `EIO` (the kind
`IOError`); it has no error number for `NotReady`. -/
inductive Errno where
  | ENOSYS
  | ESTALE
  | ENOENT
  | EIO
  | EPERM
  deriving DecidableEq, Repr

/-- Outcome of running a handler: it returns a value or panics. -/
inductive Exec (α : Type) where
  | ret (a : α)
  | panic
  deriving DecidableEq, Repr

/-- The pair `(fuse.Node, fuse.Error)` returned by `Lookup` and `Mkdir`. -/
structure NodeResult where
  node : Option Node
  err : Option Errno
  deriving DecidableEq, Repr

/-- The triple `(fuse.Node, fuse.Handle, fuse.Error)` returned by `Create`; the
adapter never produces a handle. -/
structure CreateResult where
  node : Option Node
  handle : Option Unit
  err : Option Errno
  deriving DecidableEq, Repr

/-- Modelled from the spec: `fuse.Attr`, restricted to the fields the adapter sets and
to `Size`; a field left out of a composite literal holds the zero value. -/
structure Attr where
  Size : Nat := 0
  Mtime : Time := 0
  Mode : Nat := 0
  Uid : Nat := 0
  Gid : Nat := 0
  deriving DecidableEq, Repr

/-- Modelled from the spec: `fuse.Dirent`; the adapter sets `Name` only. -/
structure Dirent where
  Inode : Nat := 0
  Type_ : Nat := 0
  Name : String := ""
  deriving DecidableEq, Repr

/-- Modelled from the spec: the fields of `fuse.MkdirRequest` the adapter reads. -/
structure MkdirRequest where
  Name : String
  deriving DecidableEq, Repr

/-- Modelled from the spec: the fields of `fuse.CreateRequest` the adapter reads. -/
structure CreateRequest where
  Name : String
  deriving DecidableEq, Repr

/-- Modelled from the spec: the fields of `fuse.RenameRequest` the adapter reads. -/
structure RenameRequest where
  OldName : String
  NewName : String
  deriving DecidableEq, Repr

/-- Modelled from the spec: the fields of `fuse.RemoveRequest` the adapter reads. -/
structure RemoveRequest where
  Name : String
  Dir : Bool
  deriving DecidableEq, Repr

/-- Modelled from the spec: the fields of `fuse.ReadRequest` the adapter reads. -/
structure ReadRequest where
  Offset : Int
  Size : Int
  deriving DecidableEq, Repr

/-- Modelled from the spec: `fuse.ReadResponse`, a byte slice (`nil` is `[]`). -/
structure ReadResponse where
  Data : List UInt8 := []
  deriving DecidableEq, Repr

/-- The process identity returned by `os.Getuid` and `os.Getgid`. -/
structure Ident where
  uid : Int
  gid : Int
  deriving DecidableEq, Repr

/-! ## Constants -/

/-- The constant `defaultFileMod = 0774`. -/
def defaultFileMod : Nat := 0o774

/-- Go's `os.ModeDir`, the top bit of a 32 bit `os.FileMode`. -/
def ModeDir : Nat := 2 ^ 31

/-! ## Collaborators -/

/-- Modelled from the spec: the methods of `metadata.MetaService` that `mount.go` calls,
over an arbitrary cache state `σ`. Each takes the state and returns its Go results
with the next state. -/
structure MetaService (σ ε : Type) where
  GetChildrenWithName : σ → Int → String → (Option CachedDriveFile × Option ε) × σ
  GetChildren : σ → Int → (List CachedDriveFile × Option ε) × σ
  LocalCreate : σ → Int → String → Int → Bool → (Option CachedDriveFile × Option ε) × σ
  LocalMod : σ → Int → String → Int → String → Int → Option ε × σ
  LocalRm : σ → Int → String → Bool → Option ε × σ

/-- One request to the metadata service, with its arguments in call order. -/
inductive MetaCall where
  | getChildrenWithName (parent : Int) (name : String)
  | getChildren (parent : Int)
  | localCreate (parent : Int) (name : String) (size : Int) (isDir : Bool)
  | localMod (parent : Int) (oldName : String) (newParent : Int) (newName : String)
      (size : Int)
  | localRm (parent : Int) (name : String) (isDir : Bool)
  deriving DecidableEq, Repr

/-- The metadata cache as a handler sees it: its state and the log of requests. -/
structure Cache (σ : Type) where
  store : σ
  calls : List MetaCall

/-- Record a request and install the state the service returned. -/
def Cache.after {σ : Type} (w : Cache σ) (c : MetaCall) (s : σ) : Cache σ :=
  { store := s, calls := w.calls ++ [c] }

/-- The three results of `blob.Manager.Read`. -/
structure BlobReply (ε : Type) where
  blob : List UInt8
  size : Int
  err : Option ε

/-- Modelled from the spec: the method of `blob.Manager` that `mount.go` calls, over an
arbitrary content cache state `β`: `Read(id, checksum, offset, size)`. -/
structure BlobManager (β ε : Type) where
  Read : β → Int → String → Int → Int → BlobReply ε × β

/-! ## `mount.go`: conversions and attributes -/

/-- The function `convertToDirNode`. -/
def convertToDirNode (file : CachedDriveFile) : GoogleDriveFolder :=
  { LocalId := file.LocalId
    LocalParentId := file.LocalParentId
    Name := file.Name
    LastMod := file.LastMod }

/-- The function `convertToFileNode`. -/
def convertToFileNode (file : CachedDriveFile) : GoogleDriveFile :=
  { LocalId := file.LocalId
    LocalParentId := file.LocalParentId
    Name := file.Name
    Size := file.FileSize
    Md5Checksum := file.Md5Checksum
    LastMod := file.LastMod }

/-- The method `GoogleDriveFS.Root`. -/
def Root : NodeResult :=
  { node := some (Node.folder { LocalId := 1 }), err := none }

/-- The method `GoogleDriveFolder.Attr`; `uint32(os.Getuid())` truncates. -/
def GoogleDriveFolder.Attr (f : GoogleDriveFolder) (p : Ident) : Attr :=
  { Mode := ModeDir ||| defaultFileMod
    Uid := (p.uid % 2 ^ 32).toNat
    Gid := (p.gid % 2 ^ 32).toNat
    Mtime := f.LastMod }

/-- The method `GoogleDriveFile.Attr`; `uint64(f.Size)` reinterprets the `int64`. -/
def GoogleDriveFile.Attr (f : GoogleDriveFile) (p : Ident) : Attr :=
  { Mode := 0o400
    Uid := (p.uid % 2 ^ 32).toNat
    Gid := (p.gid % 2 ^ 32).toNat
    Size := (f.Size % 2 ^ 64).toNat
    Mtime := f.LastMod }

/-! ## `mount.go`: folder handlers -/

/-- The method `GoogleDriveFolder.Lookup`. -/
def GoogleDriveFolder.Lookup {σ ε : Type} (ms : MetaService σ ε) (f : GoogleDriveFolder)
    (name : String) (w : Cache σ) : NodeResult × Cache σ :=
  if name = "._." ∨ name = ".hidden" ∨ name = ".DS_Store" ∨ name = "mach_kernel"
      ∨ name = "Backups.backupdb" then
    ({ node := none, err := some Errno.ENOENT }, w)
  else
    let r := ms.GetChildrenWithName w.store f.LocalId name
    let w1 := w.after (MetaCall.getChildrenWithName f.LocalId name) r.2
    match r.1.2, r.1.1 with
    | some _, _ => ({ node := none, err := some Errno.ENOENT }, w1)
    | none, none => ({ node := none, err := some Errno.ENOENT }, w1)
    | none, some file =>
      if file.IsDir then
        ({ node := some (Node.folder (convertToDirNode file)), err := none }, w1)
      else
        ({ node := some (Node.file (convertToFileNode file)), err := none }, w1)

/-- The method `GoogleDriveFolder.Mkdir`. With a `nil` error and a `nil` record,
`convertToDirNode` dereferences `nil`. -/
def GoogleDriveFolder.Mkdir {σ ε : Type} (ms : MetaService σ ε) (f : GoogleDriveFolder)
    (req : MkdirRequest) (w : Cache σ) : Exec NodeResult × Cache σ :=
  let r := ms.LocalCreate w.store f.LocalId req.Name 0 true
  let w1 := w.after (MetaCall.localCreate f.LocalId req.Name 0 true) r.2
  match r.1.2 with
  | some _ => (Exec.ret { node := none, err := some Errno.ENOENT }, w1)
  | none =>
    match r.1.1 with
    | some file =>
      (Exec.ret { node := some (Node.folder (convertToDirNode file)), err := none }, w1)
    | none => (Exec.panic, w1)

/-- The method `GoogleDriveFolder.Create`. With a `nil` error and a `nil` record,
`convertToFileNode` dereferences `nil`. -/
def GoogleDriveFolder.Create {σ ε : Type} (ms : MetaService σ ε) (f : GoogleDriveFolder)
    (req : CreateRequest) (w : Cache σ) : Exec CreateResult × Cache σ :=
  let r := ms.LocalCreate w.store f.LocalId req.Name 0 false
  let w1 := w.after (MetaCall.localCreate f.LocalId req.Name 0 false) r.2
  match r.1.2 with
  | some _ => (Exec.ret { node := none, handle := none, err := some Errno.ENOENT }, w1)
  | none =>
    match r.1.1 with
    | some file =>
      (Exec.ret { node := some (Node.file (convertToFileNode file)), handle := none,
                  err := none }, w1)
    | none => (Exec.panic, w1)

/-- The method `GoogleDriveFolder.ReadDir`: the error of `GetChildren` is dropped and
the loop appends one entry per child. -/
def GoogleDriveFolder.ReadDir {σ ε : Type} (ms : MetaService σ ε) (f : GoogleDriveFolder)
    (w : Cache σ) : (List Dirent × Option Errno) × Cache σ :=
  let r := ms.GetChildren w.store f.LocalId
  let w1 := w.after (MetaCall.getChildren f.LocalId) r.2
  let ents := r.1.1.foldl (fun ents item => ents ++ [{ Name := item.Name }]) []
  ((ents, none), w1)

/-- The method `GoogleDriveFolder.Rename`. The type assertion on `newDir` panics when
the node is not a folder. -/
def GoogleDriveFolder.Rename {σ ε : Type} (ms : MetaService σ ε) (f : GoogleDriveFolder)
    (req : RenameRequest) (newDir : Node) (w : Cache σ) : Exec (Option Errno) × Cache σ :=
  match newDir with
  | Node.file _ => (Exec.panic, w)
  | Node.folder dir =>
    let r := ms.LocalMod w.store f.LocalId req.OldName dir.LocalId req.NewName (-1)
    let w1 := w.after
      (MetaCall.localMod f.LocalId req.OldName dir.LocalId req.NewName (-1)) r.2
    match r.1 with
    | some _ => (Exec.ret (some Errno.EIO), w1)
    | none => (Exec.ret none, w1)

/-- The method `GoogleDriveFolder.Remove`. -/
def GoogleDriveFolder.Remove {σ ε : Type} (ms : MetaService σ ε) (f : GoogleDriveFolder)
    (req : RemoveRequest) (w : Cache σ) : Option Errno × Cache σ :=
  let r := ms.LocalRm w.store f.LocalId req.Name req.Dir
  let w1 := w.after (MetaCall.localRm f.LocalId req.Name req.Dir) r.2
  match r.1 with
  | some _ => (some Errno.EIO, w1)
  | none => (none, w1)

/-! ## `mount.go`: file handlers -/

/-- The method `GoogleDriveFile.Read`: on an error of the blob manager it returns
`nil` and leaves `res` as it is; otherwise it stores the blob in `res.Data`. -/
def GoogleDriveFile.Read {β ε : Type} (bm : BlobManager β ε) (f : GoogleDriveFile)
    (req : ReadRequest) (res : ReadResponse) (b : β) : (Option Errno × ReadResponse) × β :=
  let r := bm.Read b f.LocalId f.Md5Checksum req.Offset req.Size
  match r.1.err with
  | some _ => ((none, res), r.2)
  | none => ((none, { res with Data := r.1.blob }), r.2)

/-! ## `mount.go`: mounting -/

/-- Modelled from the spec: the mount substrate, over an arbitrary state `ω` of the
operating system: `os.MkdirAll`, `Umount` (declared in another file of the `mount`
package), `fuse.Mount` and the method `Serve` of the connection `fuse.Mount` returns.
`Serve` receives the connection pointer as `fuse.Mount` returned it, `nil` included,
and is taken to return when the mount goes away. -/
structure Substrate (ω ε κ : Type) where
  MkdirAll : ω → String → Nat → Option ε × ω
  Umount : ω → String → Option ε × ω
  Mount : ω → String → (Option κ × Option ε) × ω
  Serve : ω → Option κ → Option ε × ω

/-- One call to the mount substrate, with its arguments. -/
inductive SysCall (κ : Type) where
  | mkdirAll (path : String) (perm : Nat)
  | umount (path : String)
  | mount (path : String)
  | serve (c : Option κ)
  deriving DecidableEq, Repr

/-- The process state `MountAndServe` works on: the operating system, the two package
level variables of `mount.go`, and the log of substrate calls. -/
structure Proc (ω κ μ β : Type) where
  os : ω
  metaService : Option μ
  blobManager : Option β
  sys : List (SysCall κ)

/-- The function `MountAndServe`. The results of `os.MkdirAll` and `Umount` are
discarded; an error of `fuse.Mount` is returned as it is. -/
def MountAndServe {ω ε κ μ β : Type} (sub : Substrate ω ε κ) (mountPoint : String)
    (meta : μ) (blogMngr : β) (p : Proc ω κ μ β) : Option ε × Proc ω κ μ β :=
  let r1 := sub.MkdirAll p.os mountPoint defaultFileMod
  let r2 := sub.Umount r1.2 mountPoint
  let r3 := sub.Mount r2.2 mountPoint
  let log := p.sys ++ [SysCall.mkdirAll mountPoint defaultFileMod,
    SysCall.umount mountPoint, SysCall.mount mountPoint]
  match r3.1.2 with
  | some err =>
    (some err,
      { os := r3.2, metaService := some meta, blobManager := some blogMngr, sys := log })
  | none =>
    let r4 := sub.Serve r3.2 r3.1.1
    (none,
      { os := r4.2, metaService := some meta, blobManager := some blogMngr,
        sys := log ++ [SysCall.serve r3.1.1] })

/-- The substrate `sub` with the error results of `os.MkdirAll` and `Umount` replaced by
`mk` and `um`; what the two calls do to the state is kept. -/
def Substrate.withReplies {ω ε κ : Type} (sub : Substrate ω ε κ) (mk um : Option ε) :
    Substrate ω ε κ :=
  { MkdirAll := fun s path perm => (mk, (sub.MkdirAll s path perm).2)
    Umount := fun s path => (um, (sub.Umount s path).2)
    Mount := sub.Mount
    Serve := sub.Serve }

/-! ## `main.go`: shutdown -/

/-- Go's `time.Second`, in nanoseconds. -/
def Second : Nat := 1000000000

/-- What the shutdown goroutine and the goroutine it starts do. -/
inductive ShutdownEvent where
  | signalReceived
  | logV (msg : String)
  | umountCalled (mountpoint : String)
  | umountReturned
  | timerStarted (d : Nat)
  | osExit (code : Int)
  deriving DecidableEq, Repr

/-- A goroutine under a logical clock: the current reading, in nanoseconds, and the
events so far, each with the reading at which it happened. -/
structure Clock where
  now : Nat
  log : List (Nat × ShutdownEvent)
  deriving DecidableEq, Repr

/-- A statement that does not block: it happens at the current reading. -/
def Clock.emit (c : Clock) (e : ShutdownEvent) : Clock :=
  { c with log := c.log ++ [(c.now, e)] }

/-- A statement that blocks for `d` nanoseconds. -/
def Clock.wait (c : Clock) (d : Nat) : Clock :=
  { c with now := c.now + d }

/-- The goroutine `go func() { <-time.After(3 * time.Second); logger.V(...);
os.Exit(1) }()`, started when the clock reads `now`: it waits for the timer, logs, and
exits the process with status 1 (if the process is still running by then). -/
def forcedExit (now : Nat) : List (Nat × ShutdownEvent) :=
  let g0 : Clock := { now := now, log := [] }
  let g1 := (g0.emit (ShutdownEvent.timerStarted (3 * Second))).wait (3 * Second)
  let g2 := g1.emit (ShutdownEvent.logV "Couldn't umount, do it manually, now shutting down...")
  let g3 := g2.emit (ShutdownEvent.osExit 1)
  g3.log

/-- The function `gracefulShutDown` as a timeline of clock readings and events.
`signal` is the instant at which SIGTERM or SIGINT is delivered (`none`: never, and the
`select` blocks for good); `umountTakes` is how long the call `mount.Umount(mountpoint)`
takes to return. Statements other than the two blocking ones take no time, so each
reading is the earliest instant the event can have. The call to `Umount` is an ordinary
call, so the `go` statement after it runs when it has returned; the timeline of the
goroutine it starts is appended. -/
def gracefulShutDown (signal : Option Nat) (umountTakes : Nat) (mountpoint : String) :
    List (Nat × ShutdownEvent) :=
  match signal with
  | none => []
  | some t =>
    let c0 : Clock := { now := t, log := [] }
    let c1 := c0.emit ShutdownEvent.signalReceived
    let c2 := c1.emit (ShutdownEvent.logV "Gracefully shutting down...")
    let c3 := (c2.emit (ShutdownEvent.umountCalled mountpoint)).wait umountTakes
    let c4 := c3.emit ShutdownEvent.umountReturned
    c4.log ++ forcedExit c4.now

/-! ## Concrete collaborators used to exercise the handlers -/

/-- Modelled from the spec: the kinds of failure a cache reports (section 7 of the
specification); the `metadata` and `blob` packages declare the actual values. -/
inductive CacheError where
  | notFound
  | notEmpty
  | notReady
  | ioFailure
  deriving DecidableEq, Repr

/-- Modelled from the spec: a metadata cache held in memory as the list of its
records. Lookup by name takes the first match; creation appends a record with a fresh
identifier; removal reports `notFound` for a missing name and `notEmpty` for a
directory that has children. -/
def memMeta : MetaService (List CachedDriveFile) CacheError where
  GetChildrenWithName := fun s p n =>
    ((s.find? (fun c => c.LocalParentId == p && c.Name == n), none), s)
  GetChildren := fun s p => ((s.filter (fun c => c.LocalParentId == p), none), s)
  LocalCreate := fun s p n size isDir =>
    let c : CachedDriveFile :=
      { LocalId := (s.length : Int) + 2, LocalParentId := p, Name := n, IsDir := isDir,
        FileSize := size, Md5Checksum := "", LastMod := 0 }
    ((some c, none), s ++ [c])
  LocalMod := fun s p o q n _ =>
    match s.find? (fun c => c.LocalParentId == p && c.Name == o) with
    | none => (some CacheError.notFound, s)
    | some c =>
      (none, s.map (fun x =>
        if x.LocalId == c.LocalId then { x with LocalParentId := q, Name := n } else x))
  LocalRm := fun s p n _ =>
    match s.find? (fun c => c.LocalParentId == p && c.Name == n) with
    | none => (some CacheError.notFound, s)
    | some c =>
      if s.any (fun x => x.LocalParentId == c.LocalId) then (some CacheError.notEmpty, s)
      else (none, s.filter (fun x => x.LocalId != c.LocalId))

/-- A metadata cache whose every request fails with an I/O failure. -/
def brokenMeta : MetaService Unit CacheError where
  GetChildrenWithName := fun s _ _ => ((none, some CacheError.ioFailure), s)
  GetChildren := fun s _ => (([], some CacheError.ioFailure), s)
  LocalCreate := fun s _ _ _ _ => ((none, some CacheError.ioFailure), s)
  LocalMod := fun s _ _ _ _ _ => (some CacheError.ioFailure, s)
  LocalRm := fun s _ _ _ => (some CacheError.ioFailure, s)

/-- Modelled from the spec: a content cache held in memory as a list of
`(identifier, bytes)`; a read of an identifier that is not in the list reports
`notReady`, a read of a cached one returns the requested range. -/
def memBlobs : BlobManager (List (Int × List UInt8)) CacheError where
  Read := fun s id _ off size =>
    match s.find? (fun e => e.1 == id) with
    | none => ({ blob := [], size := 0, err := some CacheError.notReady }, s)
    | some e =>
      let bytes := (e.2.drop off.toNat).take size.toNat
      ({ blob := bytes, size := bytes.length, err := none }, s)

/-- A content cache whose every read fails with an I/O failure. -/
def brokenBlobs : BlobManager Unit CacheError where
  Read := fun s _ _ _ _ => ({ blob := [], size := 0, err := some CacheError.ioFailure }, s)

/-- A record of a folder `docs` under the root. -/
def docsRecord : CachedDriveFile :=
  { LocalId := 2, LocalParentId := 1, Name := "docs", IsDir := true, FileSize := 0,
    Md5Checksum := "", LastMod := 1700000000 }

/-- A record of a file `a.txt` of 5 bytes under the root. -/
def fileRecord : CachedDriveFile :=
  { LocalId := 3, LocalParentId := 1, Name := "a.txt", IsDir := false, FileSize := 5,
    Md5Checksum := "5d41402abc4b2a76b9719d911017c592", LastMod := 1700000100 }

/-- A record of a file under the root whose name is a reserved one. -/
def dsStoreRecord : CachedDriveFile :=
  { LocalId := 4, LocalParentId := 1, Name := ".DS_Store", IsDir := false, FileSize := 7,
    Md5Checksum := "", LastMod := 1700000200 }

/-- The root folder node, as `Root` builds it. -/
def rootFolder : GoogleDriveFolder := { LocalId := 1 }

/-- A metadata cache whose enumeration hands back three children together with an
I/O failure, as a Go call that fails part of the way through its rows does. -/
def partialMeta : MetaService Unit CacheError where
  GetChildrenWithName := fun s _ _ => ((none, some CacheError.ioFailure), s)
  GetChildren := fun s _ =>
    (([docsRecord, fileRecord, dsStoreRecord], some CacheError.ioFailure), s)
  LocalCreate := fun s _ _ _ _ => ((none, some CacheError.ioFailure), s)
  LocalMod := fun s _ _ _ _ _ => (some CacheError.ioFailure, s)
  LocalRm := fun s _ _ _ => (some CacheError.ioFailure, s)

/-- A mount substrate whose state is the list of the calls it has carried out, in
order; the outcomes of the calls are fixed in advance. -/
def tracingSubstrate (mk um : Option CacheError) (mt : Option Nat × Option CacheError) :
    Substrate (List (SysCall Nat)) CacheError Nat where
  MkdirAll := fun s path perm => (mk, s ++ [SysCall.mkdirAll path perm])
  Umount := fun s path => (um, s ++ [SysCall.umount path])
  Mount := fun s path => (mt, s ++ [SysCall.mount path])
  Serve := fun s c => (none, s ++ [SysCall.serve c])

/-! ## Theorems -/

/-- The guard at the head of `Lookup` is membership in the list of reserved names. -/
lemma reserved_iff (name : String) :
    (name = "._." ∨ name = ".hidden" ∨ name = ".DS_Store" ∨ name = "mach_kernel"
      ∨ name = "Backups.backupdb") ↔
    name ∈ ["._.", ".hidden", ".DS_Store", "mach_kernel", "Backups.backupdb"] := by
  simp

/-- C2: for a name that is not reserved, `Lookup` returns `ENOENT` (and no node) exactly
when the metadata query returns an error or no record; when the query returns a record
and no error, `Lookup` succeeds with a folder node if the record is a directory and a
file node otherwise, carrying the identifier, parent identifier, name and modification
time of the record, and for a file also its size and checksum. -/
theorem Lookup_resolves {σ ε : Type} (ms : MetaService σ ε) (f : GoogleDriveFolder)
    (name : String) (w : Cache σ)
    (hname : name ∉ ["._.", ".hidden", ".DS_Store", "mach_kernel", "Backups.backupdb"]) :
    ((f.Lookup ms name w).1.err = some Errno.ENOENT ↔
      ((ms.GetChildrenWithName w.store f.LocalId name).1.2 ≠ none ∨
        (ms.GetChildrenWithName w.store f.LocalId name).1.1 = none)) ∧
    ((f.Lookup ms name w).1.err = some Errno.ENOENT → (f.Lookup ms name w).1.node = none) ∧
    (∀ file : CachedDriveFile,
      (ms.GetChildrenWithName w.store f.LocalId name).1 = (some file, none) →
        (f.Lookup ms name w).1.err = none ∧
        (file.IsDir = true → (f.Lookup ms name w).1.node = some (Node.folder
          { LocalId := file.LocalId, LocalParentId := file.LocalParentId,
            Name := file.Name, Size := 0, LastMod := file.LastMod })) ∧
        (file.IsDir = false → (f.Lookup ms name w).1.node = some (Node.file
          { LocalId := file.LocalId, LocalParentId := file.LocalParentId,
            Name := file.Name, Md5Checksum := file.Md5Checksum, Size := file.FileSize,
            LastMod := file.LastMod }))) := by
  have hres : ¬ (name = "._." ∨ name = ".hidden" ∨ name = ".DS_Store"
      ∨ name = "mach_kernel" ∨ name = "Backups.backupdb") :=
    fun h => hname ((reserved_iff name).1 h)
  unfold GoogleDriveFolder.Lookup
  rw [if_neg hres]
  rcases hq : ms.GetChildrenWithName w.store f.LocalId name with ⟨⟨file, err⟩, s⟩
  cases err with
  | some e => simp
  | none =>
    cases file with
    | none => simp
    | some c =>
      cases hd : c.IsDir <;> simp [hd, convertToDirNode, convertToFileNode]

/-- Witness for C2: the in-memory cache holding `docs` and `a.txt` under the root
resolves `a.txt` to the file node of its record. -/
theorem Lookup_resolves_witness :
    (rootFolder.Lookup memMeta "a.txt" { store := [docsRecord, fileRecord], calls := [] }).1.node
      = some (Node.file
          { LocalId := 3, LocalParentId := 1, Name := "a.txt",
            Md5Checksum := "5d41402abc4b2a76b9719d911017c592", Size := 5,
            LastMod := 1700000100 }) :=
  ((Lookup_resolves memMeta rootFolder "a.txt"
      { store := [docsRecord, fileRecord], calls := [] } (by decide)).2.2
      fileRecord (by decide)).2.2 (by decide)

/-- C3: for each of the five reserved names `Lookup` returns `ENOENT` with no node and
leaves the cache as it was: the state is untouched and the request log has no new
entry, whatever the metadata service is. -/
theorem Lookup_reserved {σ ε : Type} (ms : MetaService σ ε) (f : GoogleDriveFolder)
    (name : String) (w : Cache σ)
    (hname : name ∈ ["._.", ".hidden", ".DS_Store", "mach_kernel", "Backups.backupdb"]) :
    f.Lookup ms name w = ({ node := none, err := some Errno.ENOENT }, w) := by
  unfold GoogleDriveFolder.Lookup
  rw [if_pos ((reserved_iff name).2 hname)]

/-- Witness for C3: the in-memory cache holds a child named `.DS_Store` under the root,
and `Lookup` of that name still answers `ENOENT` without a request. -/
theorem Lookup_reserved_witness :
    (memMeta.GetChildrenWithName [dsStoreRecord] 1 ".DS_Store").1.1 = some dsStoreRecord ∧
    rootFolder.Lookup memMeta ".DS_Store" { store := [dsStoreRecord], calls := [] }
      = ({ node := none, err := some Errno.ENOENT },
         { store := [dsStoreRecord], calls := [] }) :=
  ⟨by decide, Lookup_reserved memMeta rootFolder ".DS_Store"
      { store := [dsStoreRecord], calls := [] } (by decide)⟩

/-- C6: `Rename` onto a destination folder node issues one request to the metadata
service, `LocalMod (p, old, q, new, -1)`, and nothing else: the request log grows by
that entry and the state is the one the request returns. The result is `EIO` exactly
when the request reports an error, and `nil` exactly when it reports none. -/
theorem Rename_single_move {σ ε : Type} (ms : MetaService σ ε) (f : GoogleDriveFolder)
    (req : RenameRequest) (dir : GoogleDriveFolder) (w : Cache σ) :
    (f.Rename ms req (Node.folder dir) w).2.calls
      = w.calls ++ [MetaCall.localMod f.LocalId req.OldName dir.LocalId req.NewName (-1)] ∧
    (f.Rename ms req (Node.folder dir) w).2.store
      = (ms.LocalMod w.store f.LocalId req.OldName dir.LocalId req.NewName (-1)).2 ∧
    ((f.Rename ms req (Node.folder dir) w).1 = Exec.ret (some Errno.EIO) ↔
      (ms.LocalMod w.store f.LocalId req.OldName dir.LocalId req.NewName (-1)).1 ≠ none) ∧
    ((f.Rename ms req (Node.folder dir) w).1 = Exec.ret none ↔
      (ms.LocalMod w.store f.LocalId req.OldName dir.LocalId req.NewName (-1)).1 = none) := by
  simp only [GoogleDriveFolder.Rename, Cache.after]
  generalize ms.LocalMod w.store f.LocalId req.OldName dir.LocalId req.NewName (-1) = r
  rcases r with ⟨_ | e, s⟩ <;> simp

/-- Counterexample to C5 as stated: the in-memory cache reports `notFound` for the
removal of a name that does not exist, and `Remove` answers `EIO`, not `ENOENT`. -/
theorem Remove_notFound_counterexample :
    (memMeta.LocalRm [docsRecord] 1 "ghost" false).1 = some CacheError.notFound ∧
    (rootFolder.Remove memMeta { Name := "ghost", Dir := false }
        { store := [docsRecord], calls := [] }).1 = some Errno.EIO ∧
    (rootFolder.Remove memMeta { Name := "ghost", Dir := false }
        { store := [docsRecord], calls := [] }).1 ≠ some Errno.ENOENT := by
  decide

/-- C5, amended: `Remove` issues one request `LocalRm (p, name, isDirectory)` to the
metadata service and nothing else; it returns `nil` exactly when the request reports
no error and `EIO` exactly when the request reports an error, whatever the error is
(name not found and directory not empty included). -/
theorem Remove_maps_errors_to_EIO {σ ε : Type} (ms : MetaService σ ε)
    (f : GoogleDriveFolder) (req : RemoveRequest) (w : Cache σ) :
    (f.Remove ms req w).2.calls
      = w.calls ++ [MetaCall.localRm f.LocalId req.Name req.Dir] ∧
    (f.Remove ms req w).2.store = (ms.LocalRm w.store f.LocalId req.Name req.Dir).2 ∧
    ((f.Remove ms req w).1 = none ↔
      (ms.LocalRm w.store f.LocalId req.Name req.Dir).1 = none) ∧
    ((f.Remove ms req w).1 = some Errno.EIO ↔
      (ms.LocalRm w.store f.LocalId req.Name req.Dir).1 ≠ none) := by
  simp only [GoogleDriveFolder.Remove, Cache.after]
  generalize ms.LocalRm w.store f.LocalId req.Name req.Dir = r
  rcases r with ⟨_ | e, s⟩ <;> simp

/-- Counterexample to C4 as stated: against a metadata cache whose creation request
fails, `Mkdir` and `Create` return `ENOENT`, not `EIO`. -/
theorem create_failure_counterexample :
    (brokenMeta.LocalCreate () 1 "new" 0 true).1.2 = some CacheError.ioFailure ∧
    (rootFolder.Mkdir brokenMeta { Name := "new" } { store := (), calls := [] }).1
      = Exec.ret { node := none, err := some Errno.ENOENT } ∧
    (rootFolder.Create brokenMeta { Name := "new" } { store := (), calls := [] }).1
      = Exec.ret { node := none, handle := none, err := some Errno.ENOENT } ∧
    (rootFolder.Mkdir brokenMeta { Name := "new" } { store := (), calls := [] }).1
      ≠ Exec.ret { node := none, err := some Errno.EIO } ∧
    (rootFolder.Create brokenMeta { Name := "new" } { store := (), calls := [] }).1
      ≠ Exec.ret { node := none, handle := none, err := some Errno.EIO } := by
  decide

/-- C4, amended: `Create` issues the one request `LocalCreate (p, n, 0, false)` and
`Mkdir` the one request `LocalCreate (p, n, 0, true)`. Whenever the request reports an
error, the operation returns `ENOENT` and no node; whenever it reports no error and
returns a record, the operation returns, with no error, the node converted from the
record: a folder node for `Mkdir`, a file node (and no handle) for `Create`. -/
theorem create_contract {σ ε : Type} (ms : MetaService σ ε) (f : GoogleDriveFolder)
    (n : String) (w : Cache σ) :
    ((f.Create ms { Name := n } w).2.calls
        = w.calls ++ [MetaCall.localCreate f.LocalId n 0 false] ∧
      (f.Create ms { Name := n } w).2.store
        = (ms.LocalCreate w.store f.LocalId n 0 false).2 ∧
      ((ms.LocalCreate w.store f.LocalId n 0 false).1.2 ≠ none →
        (f.Create ms { Name := n } w).1
          = Exec.ret { node := none, handle := none, err := some Errno.ENOENT }) ∧
      (∀ file : CachedDriveFile,
        (ms.LocalCreate w.store f.LocalId n 0 false).1 = (some file, none) →
        (f.Create ms { Name := n } w).1
          = Exec.ret
              { node := some (Node.file
                  { LocalId := file.LocalId, LocalParentId := file.LocalParentId,
                    Name := file.Name, Md5Checksum := file.Md5Checksum,
                    Size := file.FileSize, LastMod := file.LastMod })
                handle := none
                err := none })) ∧
    ((f.Mkdir ms { Name := n } w).2.calls
        = w.calls ++ [MetaCall.localCreate f.LocalId n 0 true] ∧
      (f.Mkdir ms { Name := n } w).2.store
        = (ms.LocalCreate w.store f.LocalId n 0 true).2 ∧
      ((ms.LocalCreate w.store f.LocalId n 0 true).1.2 ≠ none →
        (f.Mkdir ms { Name := n } w).1
          = Exec.ret { node := none, err := some Errno.ENOENT }) ∧
      (∀ file : CachedDriveFile,
        (ms.LocalCreate w.store f.LocalId n 0 true).1 = (some file, none) →
        (f.Mkdir ms { Name := n } w).1
          = Exec.ret
              { node := some (Node.folder
                  { LocalId := file.LocalId, LocalParentId := file.LocalParentId,
                    Name := file.Name, Size := 0, LastMod := file.LastMod })
                err := none })) := by
  constructor
  · simp only [GoogleDriveFolder.Create, Cache.after]
    generalize ms.LocalCreate w.store f.LocalId n 0 false = r
    rcases r with ⟨⟨_ | c, _ | e⟩, s⟩ <;> simp [convertToFileNode]
  · simp only [GoogleDriveFolder.Mkdir, Cache.after]
    generalize ms.LocalCreate w.store f.LocalId n 0 true = r
    rcases r with ⟨⟨_ | c, _ | e⟩, s⟩ <;> simp [convertToDirNode]

/-- Witness for C4, amended: on the in-memory cache holding `docs`, creating `b.txt`
under the root returns the file node of the new record, of size 0. -/
theorem create_contract_witness :
    (rootFolder.Create memMeta { Name := "b.txt" } { store := [docsRecord], calls := [] }).1
      = Exec.ret
          { node := some (Node.file
              { LocalId := 3, LocalParentId := 1, Name := "b.txt", Md5Checksum := "",
                Size := 0, LastMod := 0 })
            handle := none
            err := none } :=
  (create_contract memMeta rootFolder "b.txt" { store := [docsRecord], calls := [] }).1.2.2.2
    { LocalId := 3, LocalParentId := 1, Name := "b.txt", IsDir := false, FileSize := 0,
      Md5Checksum := "", LastMod := 0 } (by decide)

/-- The loop of `ReadDir` builds the list of the children's names, in order. -/
lemma readDir_loop (children : List CachedDriveFile) (acc : List Dirent) :
    children.foldl (fun ents item => ents ++ [({ Name := item.Name } : Dirent)]) acc
      = acc ++ children.map (fun item => ({ Name := item.Name } : Dirent)) := by
  induction children generalizing acc with
  | nil => simp
  | cons c cs ih => simp [List.foldl_cons, ih]

/-- Counterexample to C7 as stated: the enumeration fails with an I/O failure and hands
back three children with it; `ReadDir` drops the error and lists the three names, so
the listing of a failed enumeration is not empty. -/
theorem ReadDir_failure_counterexample :
    (partialMeta.GetChildren () 1).1.2 = some CacheError.ioFailure ∧
    (rootFolder.ReadDir partialMeta { store := (), calls := [] }).1.1
      = [{ Name := "docs" }, { Name := "a.txt" }, { Name := ".DS_Store" }] ∧
    (rootFolder.ReadDir partialMeta { store := (), calls := [] }).1.1 ≠ [] := by
  decide

/-- C7, amended: `ReadDir` always returns a `nil` error and issues the one request
`GetChildren (p)`, leaving the cache in the state that request returns. Its listing
is, entry by entry, the names of the children that the request returned, whether or
not the request also reported an error: same length, the i-th entry named after the
i-th child, order and duplicates kept, every other field of an entry zero. The listing
is empty exactly when the request returned no children. -/
theorem ReadDir_lists {σ ε : Type} (ms : MetaService σ ε) (f : GoogleDriveFolder)
    (w : Cache σ) :
    (f.ReadDir ms w).1.2 = none ∧
    (f.ReadDir ms w).2.calls = w.calls ++ [MetaCall.getChildren f.LocalId] ∧
    (f.ReadDir ms w).2.store = (ms.GetChildren w.store f.LocalId).2 ∧
    (f.ReadDir ms w).1.1
      = (ms.GetChildren w.store f.LocalId).1.1.map
          (fun c => ({ Inode := 0, Type_ := 0, Name := c.Name } : Dirent)) ∧
    (f.ReadDir ms w).1.1.length = (ms.GetChildren w.store f.LocalId).1.1.length ∧
    (∀ (i : Nat) (h1 : i < (f.ReadDir ms w).1.1.length)
        (h2 : i < (ms.GetChildren w.store f.LocalId).1.1.length),
      ((f.ReadDir ms w).1.1.get ⟨i, h1⟩).Name
        = ((ms.GetChildren w.store f.LocalId).1.1.get ⟨i, h2⟩).Name) ∧
    ((f.ReadDir ms w).1.1 = [] ↔ (ms.GetChildren w.store f.LocalId).1.1 = []) := by
  have hl : (f.ReadDir ms w).1.1
      = (ms.GetChildren w.store f.LocalId).1.1.map
          (fun x => ({ Name := x.Name } : Dirent)) := by
    simp [GoogleDriveFolder.ReadDir, readDir_loop]
  refine ⟨rfl, rfl, rfl, hl, ?_, ?_, ?_⟩
  · rw [hl]; simp
  · intro i h1 h2
    simp [hl]
  · rw [hl]; simp

/-- Witness for C7, amended: on the in-memory cache holding `docs` and `a.txt` under the
root, the listing of the root is those two names, in the cache's order. -/
theorem ReadDir_lists_witness :
    (rootFolder.ReadDir memMeta { store := [docsRecord, fileRecord], calls := [] }).1.1
      = [{ Name := "docs" }, { Name := "a.txt" }] :=
  (ReadDir_lists memMeta rootFolder
    { store := [docsRecord, fileRecord], calls := [] }).2.2.2.1

/-- Counterexample to C1 as stated: the content cache holds nothing for the file, its
read reports `notReady`, and `Read` returns `nil` (success) with an empty response; a
read that fails with an I/O failure is answered in the same way. -/
theorem Read_miss_counterexample :
    (memBlobs.Read [] 3 "5d41402abc4b2a76b9719d911017c592" 0 5).1.err
      = some CacheError.notReady ∧
    ((convertToFileNode fileRecord).Read memBlobs { Offset := 0, Size := 5 } { Data := [] }
        []).1 = (none, { Data := [] }) ∧
    (brokenBlobs.Read () 3 "5d41402abc4b2a76b9719d911017c592" 0 5).1.err
      = some CacheError.ioFailure ∧
    ((convertToFileNode fileRecord).Read brokenBlobs { Offset := 0, Size := 5 }
        { Data := [] } ()).1 = (none, { Data := [] }) := by
  decide

/-- C1, amended: `Read` issues the read `(LocalId, Md5Checksum, Offset, Size)` to the
content cache and always returns `nil`. When the cache read reports an error, of any
kind, the response is left exactly as it was passed in; when it reports none, the
response data is the blob the cache returned. -/
theorem Read_contract {β ε : Type} (bm : BlobManager β ε) (f : GoogleDriveFile)
    (req : ReadRequest) (res : ReadResponse) (b : β) :
    (f.Read bm req res b).1.1 = none ∧
    (f.Read bm req res b).2 = (bm.Read b f.LocalId f.Md5Checksum req.Offset req.Size).2 ∧
    ((bm.Read b f.LocalId f.Md5Checksum req.Offset req.Size).1.err ≠ none →
      (f.Read bm req res b).1.2 = res) ∧
    ((bm.Read b f.LocalId f.Md5Checksum req.Offset req.Size).1.err = none →
      (f.Read bm req res b).1.2.Data
        = (bm.Read b f.LocalId f.Md5Checksum req.Offset req.Size).1.blob) := by
  simp only [GoogleDriveFile.Read]
  generalize bm.Read b f.LocalId f.Md5Checksum req.Offset req.Size = r
  rcases r with ⟨⟨blob, n, _ | e⟩, s⟩ <;> simp

/-- Witness for C1, amended: with the five bytes of `a.txt` in the content cache, a
read of 3 bytes at offset 1 succeeds with bytes 1 to 3. -/
theorem Read_contract_witness :
    ((convertToFileNode fileRecord).Read memBlobs { Offset := 1, Size := 3 } { Data := [] }
        [(3, [104, 101, 108, 108, 111])]).1.2.Data = [101, 108, 108] :=
  (Read_contract memBlobs (convertToFileNode fileRecord) { Offset := 1, Size := 3 }
    { Data := [] } [(3, [104, 101, 108, 108, 111])]).2.2.2 (by decide)

/-- C8: `Attr` is a total function of the node. For a folder the mode has the
directory bit set and carries the permissions 0774, the size is 0 and the
modification time is the node's `LastMod`. For a file the mode is 0400, with the
directory bit and every other bit above the permission bits clear, the size is the
node's `Size` reinterpreted as an unsigned 64 bit value (so it equals `Size` whenever
`0 ≤ Size < 2 ^ 63`), and the modification time is the node's `LastMod`. -/
theorem Attr_reports (d : GoogleDriveFolder) (f : GoogleDriveFile) (p : Ident) :
    ((d.Attr p).Mode.testBit 31 = true ∧ (d.Attr p).Mode % 2 ^ 9 = 0o774 ∧
      (d.Attr p).Size = 0 ∧ (d.Attr p).Mtime = d.LastMod) ∧
    ((f.Attr p).Mode = 0o400 ∧ (f.Attr p).Mode.testBit 31 = false ∧
      (∀ i : Nat, 9 ≤ i → (f.Attr p).Mode.testBit i = false) ∧
      ((f.Attr p).Size : Int) = f.Size % 2 ^ 64 ∧ (f.Attr p).Size < 2 ^ 64 ∧
      (0 ≤ f.Size → f.Size < 2 ^ 63 → ((f.Attr p).Size : Int) = f.Size) ∧
      (f.Attr p).Mtime = f.LastMod) := by
  have hsz : ((f.Attr p).Size : Int) = f.Size % 2 ^ 64 := by
    simp only [GoogleDriveFile.Attr]
    exact Int.toNat_of_nonneg (Int.emod_nonneg _ (by norm_num))
  have hd1 : (d.Attr p).Mode.testBit 31 = true := by
    simp only [GoogleDriveFolder.Attr, ModeDir, defaultFileMod]; decide
  have hd2 : (d.Attr p).Mode % 2 ^ 9 = 0o774 := by
    simp only [GoogleDriveFolder.Attr, ModeDir, defaultFileMod]; decide
  have hf1 : (f.Attr p).Mode.testBit 31 = false := by
    simp only [GoogleDriveFile.Attr]; decide
  refine ⟨⟨hd1, hd2, rfl, rfl⟩, rfl, hf1, ?_, hsz, ?_, ?_, rfl⟩
  · intro i hi
    apply Nat.testBit_eq_false_of_lt
    calc (f.Attr p).Mode = 256 := rfl
      _ < 2 ^ 9 := by norm_num
      _ ≤ 2 ^ i := Nat.pow_le_pow_right (by norm_num) hi
  · have h : ((f.Attr p).Size : Int) < 2 ^ 64 := by
      rw [hsz]; exact Int.emod_lt_of_pos _ (by norm_num)
    exact_mod_cast h
  · intro h0 h1
    rw [hsz]
    exact Int.emod_eq_of_lt h0 (by linarith)

/-- Witness for C8: the file node of `a.txt` has `Size` 5, within `0 ≤ Size < 2 ^ 63`,
and its attributes report the size 5. -/
theorem Attr_reports_witness :
    (((convertToFileNode fileRecord).Attr { uid := 1000, gid := 1000 }).Size : Int) = 5 :=
  (Attr_reports (convertToDirNode docsRecord) (convertToFileNode fileRecord)
    { uid := 1000, gid := 1000 }).2.2.2.2.2.2.1 (by decide) (by decide)

/-- C9: `MountAndServe` runs `os.MkdirAll (path, 0774)` in the state it is given, then
`Umount (path)` in the state that leaves, then `fuse.Mount (path)` in the state that
leaves. It returns exactly the error of `fuse.Mount`: an error if and only if the mount
failed, and then that same error. When the mount failed, the operating system is left
as `fuse.Mount` left it and `Serve` is not run; when it succeeded, `Serve` is run on
the connection `fuse.Mount` returned, in the state `fuse.Mount` left, and the
operating system is left as `Serve` leaves it. Both package variables are set. The
error results of `os.MkdirAll` and `Umount` change nothing: replacing them by any
others gives the same result and the same final state. -/
theorem MountAndServe_contract {ω ε κ μ β : Type} (sub : Substrate ω ε κ)
    (mountPoint : String) (meta : μ) (blogMngr : β) (p : Proc ω κ μ β)
    (a b : Option ε × ω) (c : (Option κ × Option ε) × ω)
    (ha : sub.MkdirAll p.os mountPoint 0o774 = a)
    (hb : sub.Umount a.2 mountPoint = b)
    (hc : sub.Mount b.2 mountPoint = c) :
    (MountAndServe sub mountPoint meta blogMngr p).1 = c.1.2 ∧
    (c.1.2 ≠ none →
      (MountAndServe sub mountPoint meta blogMngr p).2
        = { os := c.2, metaService := some meta, blobManager := some blogMngr,
            sys := p.sys ++ [SysCall.mkdirAll mountPoint 0o774, SysCall.umount mountPoint,
              SysCall.mount mountPoint] }) ∧
    (c.1.2 = none →
      (MountAndServe sub mountPoint meta blogMngr p).2
        = { os := (sub.Serve c.2 c.1.1).2, metaService := some meta,
            blobManager := some blogMngr,
            sys := p.sys ++ [SysCall.mkdirAll mountPoint 0o774, SysCall.umount mountPoint,
              SysCall.mount mountPoint, SysCall.serve c.1.1] }) ∧
    (∀ mk um : Option ε,
      MountAndServe (sub.withReplies mk um) mountPoint meta blogMngr p
        = MountAndServe sub mountPoint meta blogMngr p) := by
  subst ha hb hc
  refine ⟨?_, ?_, ?_, ?_⟩
  · simp only [MountAndServe, defaultFileMod]
    generalize (sub.Mount (sub.Umount (sub.MkdirAll p.os mountPoint 0o774).2
      mountPoint).2 mountPoint) = r
    rcases r with ⟨⟨c, _ | e⟩, t⟩ <;> rfl
  · simp only [MountAndServe, defaultFileMod]
    generalize (sub.Mount (sub.Umount (sub.MkdirAll p.os mountPoint 0o774).2
      mountPoint).2 mountPoint) = r
    rcases r with ⟨⟨c, _ | e⟩, t⟩ <;> simp
  · simp only [MountAndServe, defaultFileMod]
    generalize (sub.Mount (sub.Umount (sub.MkdirAll p.os mountPoint 0o774).2
      mountPoint).2 mountPoint) = r
    rcases r with ⟨⟨c, _ | e⟩, t⟩ <;> simp
  · intro mk um
    rfl

/-- Witness for C9: `os.MkdirAll` fails (the path is a stale mount) and `Umount` fails,
while `fuse.Mount` succeeds with connection 7. The substrate has carried out the four
calls in order, `Serve` on connection 7 last, and both package variables are set. -/
theorem MountAndServe_contract_witness :
    (MountAndServe
        (tracingSubstrate (some CacheError.ioFailure) (some CacheError.ioFailure)
          (some 7, none))
        "/mnt/drive" () ()
        ({ os := [], metaService := none, blobManager := none, sys := [] } :
          Proc (List (SysCall Nat)) Nat Unit Unit)).2
      = { os := [SysCall.mkdirAll "/mnt/drive" 0o774, SysCall.umount "/mnt/drive",
            SysCall.mount "/mnt/drive", SysCall.serve (some 7)],
          metaService := some (), blobManager := some (),
          sys := [SysCall.mkdirAll "/mnt/drive" 0o774, SysCall.umount "/mnt/drive",
            SysCall.mount "/mnt/drive", SysCall.serve (some 7)] } :=
  (MountAndServe_contract
    (tracingSubstrate (some CacheError.ioFailure) (some CacheError.ioFailure)
      (some 7, none))
    "/mnt/drive" () ()
    ({ os := [], metaService := none, blobManager := none, sys := [] } :
      Proc (List (SysCall Nat)) Nat Unit Unit)
    (some CacheError.ioFailure, [SysCall.mkdirAll "/mnt/drive" 0o774])
    (some CacheError.ioFailure,
      [SysCall.mkdirAll "/mnt/drive" 0o774, SysCall.umount "/mnt/drive"])
    ((some 7, none),
      [SysCall.mkdirAll "/mnt/drive" 0o774, SysCall.umount "/mnt/drive",
        SysCall.mount "/mnt/drive"])
    rfl rfl rfl).2.2.1 rfl

/-- Counterexample to C10 as stated: the signal arrives at instant 0 and the call to
`Umount` takes 10 seconds, more than the 3 seconds of grace. The timer is started at
10 seconds, when `Umount` has returned, and the only forced exit of the timeline is at
13 seconds: there is none within 3 seconds plus 1 second of the signal. -/
theorem gracefulShutDown_late_exit :
    3 * Second < 10 * Second ∧
    (10 * Second, ShutdownEvent.timerStarted (3 * Second))
      ∈ gracefulShutDown (some 0) (10 * Second) "/mnt/drive" ∧
    (13 * Second, ShutdownEvent.osExit 1)
      ∈ gracefulShutDown (some 0) (10 * Second) "/mnt/drive" ∧
    ¬ ∃ e ∈ gracefulShutDown (some 0) (10 * Second) "/mnt/drive",
        e.2 = ShutdownEvent.osExit 1 ∧ e.1 ≤ 0 + 3 * Second + 1 * Second := by
  decide

/-- C10, amended: after a signal at instant `t`, `gracefulShutDown` calls `Umount` at
`t` and starts the 3 second timer when that call has returned, at `t + d` for a call
that takes `d`; the forced exit, with status 1, is at `t + d + 3` seconds and at no
other instant, so never before `t + 3` seconds. Without a signal nothing happens: no
unmount, no timer, no exit. -/
theorem gracefulShutDown_timeline (t d : Nat) (mountpoint : String) :
    (∀ (te : Nat) (c : Int),
      (te, ShutdownEvent.osExit c) ∈ gracefulShutDown (some t) d mountpoint ↔
        te = t + d + 3 * Second ∧ c = 1) ∧
    (∀ te dur : Nat,
      (te, ShutdownEvent.timerStarted dur) ∈ gracefulShutDown (some t) d mountpoint ↔
        te = t + d ∧ dur = 3 * Second) ∧
    (∀ (te : Nat) (m : String),
      (te, ShutdownEvent.umountCalled m) ∈ gracefulShutDown (some t) d mountpoint ↔
        te = t ∧ m = mountpoint) ∧
    (∀ te : Nat,
      (te, ShutdownEvent.umountReturned) ∈ gracefulShutDown (some t) d mountpoint ↔
        te = t + d) ∧
    (∀ e ∈ gracefulShutDown (some t) d mountpoint, t ≤ e.1) ∧
    gracefulShutDown none d mountpoint = [] := by
  refine ⟨?_, ?_, ?_, ?_, ?_, rfl⟩
  · intro te c
    simp [gracefulShutDown, forcedExit, Clock.emit, Clock.wait]
  · intro te dur
    simp [gracefulShutDown, forcedExit, Clock.emit, Clock.wait]
  · intro te m
    simp [gracefulShutDown, forcedExit, Clock.emit, Clock.wait]
  · intro te
    simp [gracefulShutDown, forcedExit, Clock.emit, Clock.wait]
  · intro e he
    simp only [gracefulShutDown, forcedExit, Clock.emit, Clock.wait, List.cons_append,
      List.nil_append,
      List.mem_cons, List.mem_singleton, List.not_mem_nil, or_false] at he
    rcases he with h | h | h | h | h | h | h <;> subst h <;> simp <;> omega

end DriveFuse
